import Mathlib

/-!
Formal model of the European digital slope pricing library.

The Python modules are embedded shallowly over the real numbers:

* floats are modelled as real numbers;
* datetimes are modelled as real-valued epoch timestamps in seconds, so
  that a difference of two datetimes (in seconds) is plain subtraction;
* the SciPy standard normal cdf and pdf are modelled by the genuine
  standard normal cdf and pdf, built from Mathlib's gaussian density;
* a Python dict with integer keys is modelled as its key-sorted
  association list (the source always iterates over sorted keys), and
  Python strings are modelled as lists of characters;
* a Python function that can raise is modelled as a function into
  Except String; exception propagation is explicit short-circuiting.

Code paths that the source program can only reach by raising a
different exception first (indexing an empty list, an empty surface)
are given the junk value 0 and are outside every theorem below.
-/

open Classical MeasureTheory ProbabilityTheory Set

/-- Standard normal probability density function, the model of the
SciPy pdf used by the source: gaussianPDFReal 0 1 is
(sqrt (2 pi))⁻¹ * exp (- x ^ 2 / 2). -/
noncomputable def normalPdf (x : ℝ) : ℝ := gaussianPDFReal 0 1 x

/-- Standard normal cumulative distribution function, the model of the
SciPy cdf used by the source. -/
noncomputable def normalCdf (x : ℝ) : ℝ := ∫ t in Iic x, normalPdf t

/-! Contract-type and pricing-currency enumerations from constants.py. -/

/-- Contract types supported by the engine (constants.py). -/
inductive ContractType where
  | CALL
  | PUT
  | EXPIRYMISS
  | EXPIRYRANGE
deriving DecidableEq, Repr

/-- Pricing currency conventions (constants.py). -/
inductive PricingCurrency where
  | BASE
  | NUMERAIRE
  | QUANTO
deriving DecidableEq, Repr

/-- Seconds threshold for the model-arbitrage markup (constants.py:
5 hours and 1 minute, in seconds). -/
def POTENTIAL_ARBITRAGE_DURATION : ℝ := 18060

/-! Closed-form lognormal primitives from black_scholes.py. -/

/-- The d1 parameter of the Black-Scholes formula (black_scholes.py).
On vol <= 0 or time <= 0 the source returns the float infinity; every
caller in the source guards that case away before calling, so the
value of that branch is never observed and is modelled by 0. -/
noncomputable def d1 (spot strike time rate div vol : ℝ) : ℝ :=
  if vol ≤ 0 ∨ time ≤ 0 then 0
  else (Real.log (spot / strike) + (rate - div + 0.5 * vol * vol) * time) /
    (vol * Real.sqrt time)

/-- The d2 parameter of the Black-Scholes formula (black_scholes.py). -/
noncomputable def d2 (d1_value vol time : ℝ) : ℝ :=
  d1_value - vol * Real.sqrt time

/-- Price of a binary call (black_scholes.py). -/
noncomputable def binary_call (spot strike time rate div vol : ℝ) : ℝ :=
  if vol ≤ 0 ∨ time ≤ 0 then (if spot > strike then 1 else 0)
  else
    Real.exp (-(rate * time)) *
      normalCdf (d2 (d1 spot strike time rate div vol) vol time)

/-- Price of a binary put (black_scholes.py). -/
noncomputable def binary_put (spot strike time rate div vol : ℝ) : ℝ :=
  if vol ≤ 0 ∨ time ≤ 0 then (if spot < strike then 1 else 0)
  else
    Real.exp (-(rate * time)) *
      normalCdf (-(d2 (d1 spot strike time rate div vol) vol time))

/-- Price of a vanilla call (black_scholes.py). -/
noncomputable def vanilla_call (spot strike time rate div vol : ℝ) : ℝ :=
  if vol ≤ 0 ∨ time ≤ 0 then max 0 (spot - strike)
  else
    spot * Real.exp (-(div * time)) *
        normalCdf (d1 spot strike time rate div vol) -
      strike * Real.exp (-(rate * time)) *
        normalCdf (d2 (d1 spot strike time rate div vol) vol time)

/-- Price of a vanilla put (black_scholes.py). -/
noncomputable def vanilla_put (spot strike time rate div vol : ℝ) : ℝ :=
  if vol ≤ 0 ∨ time ≤ 0 then max 0 (strike - spot)
  else
    strike * Real.exp (-(rate * time)) *
        normalCdf (-(d2 (d1 spot strike time rate div vol) vol time)) -
      spot * Real.exp (-(div * time)) *
        normalCdf (-(d1 spot strike time rate div vol))

/-- Delta of a binary call (black_scholes.py). -/
noncomputable def delta_binary_call (spot strike time rate div vol : ℝ) : ℝ :=
  if vol ≤ 0 ∨ time ≤ 0 then 0
  else
    Real.exp (-(rate * time)) *
        normalPdf (d2 (d1 spot strike time rate div vol) vol time) /
      (spot * vol * Real.sqrt time)

/-- Delta of a binary put (black_scholes.py): the negated call delta. -/
noncomputable def delta_binary_put (spot strike time rate div vol : ℝ) : ℝ :=
  -delta_binary_call spot strike time rate div vol

/-- Vega of a binary call (black_scholes.py). -/
noncomputable def vega_binary_call (spot strike time rate div vol : ℝ) : ℝ :=
  if vol ≤ 0 ∨ time ≤ 0 then 0
  else
    -Real.exp (-(rate * time)) *
        normalPdf (d2 (d1 spot strike time rate div vol) vol time) *
        d2 (d1 spot strike time rate div vol) vol time / vol

/-- Vega of a binary put (black_scholes.py): the negated call vega. -/
noncomputable def vega_binary_put (spot strike time rate div vol : ℝ) : ℝ :=
  -vega_binary_call spot strike time rate div vol

/-- Vega of a vanilla call (black_scholes.py). -/
noncomputable def vega_vanilla_call (spot strike time rate div vol : ℝ) : ℝ :=
  if vol ≤ 0 ∨ time ≤ 0 then 0
  else
    spot * Real.exp (-(div * time)) * Real.sqrt time *
      normalPdf (d1 spot strike time rate div vol)

/-- Vega of a vanilla put (black_scholes.py): equal to the call vega. -/
noncomputable def vega_vanilla_put (spot strike time rate div vol : ℝ) : ℝ :=
  vega_vanilla_call spot strike time rate div vol

/-- Dispatch of binary pricing on the contract type (black_scholes.py).
Contract types other than CALL and PUT raise a ValueError in the
source; the Except error carries the message. -/
noncomputable def price_binary_option (contract_type : ContractType)
    (spot strike time rate div vol : ℝ) : Except String ℝ :=
  match contract_type with
  | .CALL => .ok (binary_call spot strike time rate div vol)
  | .PUT => .ok (binary_put spot strike time rate div vol)
  | _ => .error "Unsupported contract type"

/-! Utilities from utils.py. -/

/-- A smile: a volatility-surface tenor entry, mapping an integer
delta coordinate to an annualized volatility. It models a Python dict
as its key-sorted association list with (necessarily) distinct keys. -/
abbrev Smile := List (ℤ × ℝ)

/-- A volatility surface: tenor in days mapped to its smile, again a
Python dict modelled as its key-sorted association list. The rr, bf
and vol_spread side tables of the source data contract are never read
by any embedded operation, so they are not modelled. -/
abbrev VolSurface := List (ℤ × Smile)

/-- Machine epsilon of a double, the value of np.finfo(float).eps. -/
noncomputable def float_eps : ℝ := 2 ^ (-52 : ℤ)

/-- Time to expiry in years (utils.py): days between start and expiry,
clamped to at least machine epsilon and at most 730 days, over 365. -/
noncomputable def calculate_time_to_expiry (start_date expiry_date : ℝ) : ℝ :=
  min 730 (max float_eps ((expiry_date - start_date) / (24 * 60 * 60))) / 365

/-- Forward-starting test (utils.py): the start date is more than 5
seconds after the pricing date. -/
def is_forward_starting (pricing_date start_date : ℝ) : Prop :=
  start_date - pricing_date > 5

/-- Intraday test (utils.py): duration of at most one day. -/
def is_intraday (time_to_expiry : ℝ) : Prop :=
  time_to_expiry ≤ 1 / 365

/-- One comparison step of the Python min over tenors: keep the closer
of the current best and the next entry, the earlier one on a tie. -/
noncomputable def tenor_min_step (target : ℝ) (b y : ℤ × Smile) :
    ℤ × Smile :=
  if |(y.1 : ℝ) - target| < |(b.1 : ℝ) - target| then y else b

/-- Choice of the tenor entry closest to the target (utils.py, the min
with an absolute-difference key inside get_volatility_from_surface);
on a tie the earlier entry wins, as for the Python min. The source
raises on an empty surface, modelled by none. -/
noncomputable def nearest_tenor (target : ℝ) :
    List (ℤ × Smile) → Option (ℤ × Smile)
  | [] => none
  | x :: xs => some (xs.foldl (tenor_min_step target) x)

/-- First-match scan for a bracketing pair of smile coordinates and the
linear interpolation between them (utils.py, the for loop inside
get_volatility_from_surface). -/
noncomputable def smile_scan (delta : ℝ) : List (ℤ × ℝ) → Option ℝ
  | p :: q :: rest =>
    if (p.1 : ℝ) ≤ delta ∧ delta ≤ (q.1 : ℝ) then
      some (p.2 * (1 - (delta - (p.1 : ℝ)) / ((q.1 : ℝ) - (p.1 : ℝ))) +
        q.2 * ((delta - (p.1 : ℝ)) / ((q.1 : ℝ) - (p.1 : ℝ))))
    else smile_scan delta (q :: rest)
  | _ => none

/-- Volatility interpolated from the surface (utils.py). The smile is
the key-sorted association list of a dict, so the source's
min(deltas) and max(deltas) over the sorted keys are its head and
last keys, and vols[0] and vols[-1] the corresponding values. The
source raises on an empty surface or an empty smile (modelled by the
junk value 0), and falls back to the vol at coordinate 50 when the
scan finds no bracket (KeyError on a missing 50 modelled by 0). -/
noncomputable def get_volatility_from_surface (vol_surface : VolSurface)
    (spot strike time_to_expiry q_rate r_rate : ℝ) : ℝ :=
  match nearest_tenor (time_to_expiry * 365) vol_surface with
  | none => 0
  | some ts =>
    match ts.2 with
    | [] => 0
    | p :: rest =>
      let forward := spot * Real.exp ((r_rate - q_rate) * time_to_expiry)
      let moneyness := Real.log (strike / forward)
      let delta := 50 + (moneyness / (2 * Real.pi)) * 100
      if delta ≤ (p.1 : ℝ) then p.2
      else if delta ≥ (((rest.getLastD p).1 : ℝ)) then (rest.getLastD p).2
      else
        match smile_scan delta (p :: rest) with
        | some v => v
        | none => (((p :: rest).lookup 50).getD 0)

/-- Vol spread read from the surface (utils.py); defaults to 0.01. -/
noncomputable def get_spread_from_surface (vol_surface : VolSurface)
    (tenor : ℤ) : ℝ :=
  ((vol_surface.lookup tenor).bind (fun s => s.lookup 50)).getD 0.01

/-! Market-class and symbol strings, modelled as character lists. -/

/-- Characters of the string forex. -/
def forex_chars : List Char := ['f', 'o', 'r', 'e', 'x']

/-- Characters of the string commodities. -/
def commodities_chars : List Char :=
  ['c', 'o', 'm', 'm', 'o', 'd', 'i', 't', 'i', 'e', 's']

/-- Characters of the string indices. -/
def indices_chars : List Char := ['i', 'n', 'd', 'i', 'c', 'e', 's']

/-- Characters of the basket suffix string. -/
def basket_chars : List Char := ['_', 'b', 'a', 's', 'k', 'e', 't']

/-- Characters of the forex basket suffix string. -/
def forex_basket_chars : List Char :=
  ['f', 'o', 'r', 'e', 'x', '_', 'b', 'a', 's', 'k', 'e', 't']

/-- Characters of the commodity basket suffix string. -/
def commodity_basket_chars : List Char :=
  ['c', 'o', 'm', 'm', 'o', 'd', 'i', 't', 'y', '_', 'b', 'a', 's', 'k', 'e', 't']

/-- Characters of the frx symbol prefix. -/
def frx_chars : List Char := ['f', 'r', 'x']

/-- Characters of the string crypto. -/
def crypto_chars : List Char := ['c', 'r', 'y', 'p', 't', 'o']

/-! Underlying configuration from underlying_config.py. -/

/-- Static per-underlying configuration record. -/
structure UnderlyingConfig where
  market : List Char
  submarket : List Char
  pip_size : ℝ
  spot_spread_size : ℝ

/-- Symbol lookup (underlying_config.py): frx-prefixed symbols get the
forex defaults with pip size 0.0001, all others the indices defaults
with pip size 0.01. -/
noncomputable def UnderlyingConfig.by_symbol (symbol : List Char) :
    UnderlyingConfig :=
  if frx_chars <+: symbol then
    { market := forex_chars, submarket := [], pip_size := 0.0001,
      spot_spread_size := 50 }
  else
    { market := indices_chars, submarket := [], pip_size := 0.01,
      spot_spread_size := 50 }

/-! Risk markup from risk_markup.py. -/

/-- Inputs of the hour-end markup rule: the source reads current_spot
and the low and high of a high_low table from a parameter dict,
defaulting each to 0 when absent. -/
structure HourEndParameters where
  current_spot : ℝ
  low : ℝ
  high : ℝ

/-- Numeric knobs of the markup engine (risk_markup.py dataclass). -/
structure MarkupParameters where
  spot_spread_size : ℝ
  pip_size : ℝ
  vol_spread : ℝ
  equal_tie_amount : ℝ
  model_arbitrage_amount : ℝ
  smile_uncertainty_amount : ℝ
  hour_end_markup_parameters : Option HourEndParameters

/-- Default MarkupParameters, the dataclass field defaults. -/
noncomputable def MarkupParameters.default_values : MarkupParameters :=
  { spot_spread_size := 50, pip_size := 0.0001, vol_spread := 0.01,
    equal_tie_amount := 0.01, model_arbitrage_amount := 0.05,
    smile_uncertainty_amount := 0.05, hour_end_markup_parameters := none }

/-- Hour-end markup rule (risk_markup.py): a pluggable stub returning
the constant 0. -/
noncomputable def HourEndMarkup.calculate_markup
    (hour_end_markup_parameters : HourEndParameters)
    (spot_min spot_max : ℝ) : ℝ := 0

/-- Equal-tie markup rule (risk_markup.py): a pluggable stub returning
the constant 0.01. -/
noncomputable def EqualTieMarkup.calculate_markup
    (underlying_symbol : List Char) (time_to_expiry : ℝ) : ℝ := 0.01

/-- Model-arbitrage markup rule (risk_markup.py): a pluggable stub
returning the constant 0.05. -/
noncomputable def ModelArbitrageMarkup.calculate_markup : ℝ := 0.05

/-- State of the markup calculator (risk_markup.py class attributes
after __init__; the market type is stored lowercased there). The
debug_info diagnostics dict is write-only in the source and is not
modelled. -/
structure RiskMarkup where
  is_atm : Prop
  is_forward_starting : Prop
  time_to_expiry : ℝ
  market_type : List Char
  for_sale : Prop
  params : MarkupParameters

/-- Constructor of RiskMarkup (risk_markup.py __init__): lowercases
the market type and substitutes the default parameters for None. -/
noncomputable def RiskMarkup.mk' (is_atm is_forward_starting : Prop)
    (time_to_expiry : ℝ) (market_type : List Char) (for_sale : Prop)
    (parameters : Option MarkupParameters) : RiskMarkup :=
  { is_atm := is_atm, is_forward_starting := is_forward_starting,
    time_to_expiry := time_to_expiry,
    market_type := market_type.map Char.toLower,
    for_sale := for_sale,
    params := parameters.getD MarkupParameters.default_values }

/-- Traded-market test (risk_markup.py): the market type is forex,
commodities or indices, or ends with one of the three basket
suffixes (a Python endswith on a tuple of suffixes). -/
def RiskMarkup.apply_traded_market_markup (rm : RiskMarkup) : Prop :=
  rm.market_type ∈ [forex_chars, commodities_chars, indices_chars] ∨
    (basket_chars <:+ rm.market_type ∨ forex_basket_chars <:+ rm.market_type ∨
      commodity_basket_chars <:+ rm.market_type)

/-- Smile-uncertainty test (risk_markup.py): indices market, duration
under 7 days, not at the money. -/
def RiskMarkup.apply_smile_uncertainty_markup (rm : RiskMarkup) : Prop :=
  rm.market_type = indices_chars ∧ rm.time_to_expiry < 7 / 365 ∧ ¬rm.is_atm

/-- Equal-tie test (risk_markup.py): hard-wired to hold. -/
def RiskMarkup.apply_equal_tie_markup (rm : RiskMarkup) : Prop := True

/-- Total risk markup (risk_markup.py calculate_total_markup): the
rule stack accumulated into a running sum, halved at the end. -/
noncomputable def RiskMarkup.calculate_total_markup (rm : RiskMarkup)
    (delta vega : ℝ) : ℝ :=
  let markup : ℝ := 0
  let markup :=
    if rm.apply_traded_market_markup then
      let markup :=
        match rm.params.hour_end_markup_parameters with
        | some hep =>
          markup + HourEndMarkup.calculate_markup hep
            (min hep.current_spot hep.low) (max hep.current_spot hep.high)
        | none => markup
      let markup :=
        if ¬(rm.is_forward_starting ∧ ¬rm.apply_equal_tie_markup) then
          let markup :=
            if ¬rm.is_atm then
              markup + min (rm.params.vol_spread * |vega|) 0.7
            else markup
          let markup :=
            if ¬is_intraday rm.time_to_expiry then
              markup +
                max 0 (min (rm.params.spot_spread_size * rm.params.pip_size *
                  |delta|) 0.01)
            else markup
          let markup :=
            if rm.apply_smile_uncertainty_markup then
              markup + rm.params.smile_uncertainty_amount
            else markup
          markup
        else markup
      let markup :=
        if rm.apply_equal_tie_markup then
          markup + EqualTieMarkup.calculate_markup [] rm.time_to_expiry
        else markup
      markup
    else markup
  let markup :=
    if ¬rm.for_sale ∧
        rm.time_to_expiry * 365 * 24 * 3600 ≤ POTENTIAL_ARBITRAGE_DURATION then
      markup + ModelArbitrageMarkup.calculate_markup
    else markup
  markup / 2

/-! Pricing engine from pricing_engine.py. -/

/-- Immutable pricing request (pricing_engine.py dataclass). -/
structure PricingParameters where
  contract_type : ContractType
  spot : ℝ
  strikes : List ℝ
  date_start : ℝ
  date_pricing : ℝ
  date_expiry : ℝ
  discount_rate : ℝ
  mu : ℝ
  vol_surface : VolSurface
  q_rate : ℝ
  r_rate : ℝ
  priced_with : PricingCurrency
  underlying_symbol : List Char
  market_type : List Char
  is_atm : Prop
  for_sale : Prop
  markup_parameters : Option MarkupParameters

/-- Construction-time validation (pricing_engine.py
_validate_parameters): the four checks in source order, each raising a
ValueError. The enum-membership checks test membership in the full
enumeration, as the Python checks do. -/
noncomputable def validate_parameters (p : PricingParameters) :
    Except String Unit :=
  if p.contract_type ∉
      [ContractType.CALL, ContractType.PUT, ContractType.EXPIRYMISS,
        ContractType.EXPIRYRANGE] then
    .error "Unsupported contract type"
  else if p.priced_with ∉
      [PricingCurrency.BASE, PricingCurrency.NUMERAIRE,
        PricingCurrency.QUANTO] then
    .error "Unsupported pricing currency"
  else if p.strikes.length ∉ [1, 2] then
    .error "Must provide either 1 or 2 strike prices"
  else if p.date_expiry ≤ p.date_start then
    .error "Expiry date must be after start date"
  else
    .ok ()

/-- Engine state after __init__ (pricing_engine.py): the request plus
the derived time to expiry and the risk-markup calculator. The
debug_info diagnostics dict is write-only and not modelled. -/
structure EuropeanDigitalSlope where
  params : PricingParameters
  time_to_expiry : ℝ
  risk_markup : RiskMarkup

/-- Engine construction (pricing_engine.py __init__): validation runs
first and a validation error propagates to the caller; otherwise the
derived values are computed and the engine returned. -/
noncomputable def EuropeanDigitalSlope.mk' (p : PricingParameters) :
    Except String EuropeanDigitalSlope :=
  match validate_parameters p with
  | .error msg => .error msg
  | .ok _ =>
    .ok { params := p,
          time_to_expiry := calculate_time_to_expiry p.date_start p.date_expiry,
          risk_markup := RiskMarkup.mk' p.is_atm
            (is_forward_starting p.date_pricing p.date_start)
            (calculate_time_to_expiry p.date_start p.date_expiry)
            p.market_type p.for_sale p.markup_parameters }

/-- Volatility for a strike (pricing_engine.py
_get_volatility_for_strike). -/
noncomputable def EuropeanDigitalSlope.get_volatility_for_strike
    (e : EuropeanDigitalSlope) (strike : ℝ) : ℝ :=
  get_volatility_from_surface e.params.vol_surface e.params.spot strike
    e.time_to_expiry e.params.q_rate e.params.r_rate

/-- First (smallest) tenor on the surface (pricing_engine.py
_get_first_tenor_on_surface, a min over the dict keys); the source
raises on an empty surface, modelled by the junk value 0. -/
def first_tenor_on_surface : VolSurface → ℤ
  | [] => 0
  | x :: xs => (xs.map Prod.fst).foldl min x.1

/-- Numeraire probability with slope adjustment (pricing_engine.py
_calculate). The source computes the binary price, then, unless the
contract is forward starting, adds the vega-weighted smile slope read
at one pip either side of the strike, clamped for short expiries on
coarse surfaces; an unsupported contract type raises out of
price_binary_option before any slope work. -/
noncomputable def EuropeanDigitalSlope.calculate_contract
    (e : EuropeanDigitalSlope) (contract_type : ContractType) :
    Except String ℝ :=
  let strike := e.params.strikes.headD 0
  let vol := get_volatility_from_surface e.params.vol_surface e.params.spot
    strike e.time_to_expiry e.params.q_rate e.params.r_rate
  match price_binary_option contract_type e.params.spot strike
      e.time_to_expiry e.params.discount_rate e.params.mu vol with
  | .error msg => .error msg
  | .ok bs_probability =>
    let slope_adjustment :=
      if is_forward_starting e.params.date_pricing e.params.date_start then
        (0 : ℝ)
      else
        let atm_vol := get_volatility_from_surface e.params.vol_surface
          e.params.spot (e.params.strikes.headD 0) e.time_to_expiry
          e.params.q_rate e.params.r_rate
        let vanilla_vega :=
          if contract_type = ContractType.CALL then
            vega_vanilla_call e.params.spot strike e.time_to_expiry
              e.params.discount_rate e.params.mu atm_vol
          else
            vega_vanilla_put e.params.spot strike e.time_to_expiry
              e.params.discount_rate e.params.mu atm_vol
        let pip_size := (UnderlyingConfig.by_symbol
          e.params.underlying_symbol).pip_size
        let vol_down := get_volatility_from_surface e.params.vol_surface
          e.params.spot (strike - pip_size) e.time_to_expiry e.params.q_rate
          e.params.r_rate
        let vol_up := get_volatility_from_surface e.params.vol_surface
          e.params.spot (strike + pip_size) e.time_to_expiry e.params.q_rate
          e.params.r_rate
        let slope := (vol_up - vol_down) / (2 * pip_size)
        let base_amount : ℝ :=
          if contract_type = ContractType.CALL then -1 else 1
        let slope_adjustment := base_amount * vanilla_vega * slope
        if e.time_to_expiry ≤ 1 / 365 ∧
            first_tenor_on_surface e.params.vol_surface > 7 then
          max (-0.03) (min 0.03 slope_adjustment)
        else slope_adjustment
    .ok (bs_probability + slope_adjustment)

/-- Numeraire dispatch (pricing_engine.py
_calculate_numeraire_probability). -/
noncomputable def EuropeanDigitalSlope.calculate_numeraire_probability
    (e : EuropeanDigitalSlope) : Except String ℝ :=
  e.calculate_contract e.params.contract_type

/-- Quanto probability (pricing_engine.py
_calculate_quanto_probability): drift replaced by the rate gap. -/
noncomputable def EuropeanDigitalSlope.calculate_quanto_probability
    (e : EuropeanDigitalSlope) : Except String ℝ :=
  let adjusted_mu := e.params.r_rate - e.params.q_rate
  let vol := get_volatility_from_surface e.params.vol_surface e.params.spot
    (e.params.strikes.headD 0) e.time_to_expiry e.params.q_rate
    e.params.r_rate
  price_binary_option e.params.contract_type e.params.spot
    (e.params.strikes.headD 0) e.time_to_expiry e.params.discount_rate
    adjusted_mu vol

/-- Vanilla component stub for base-currency pricing
(pricing_engine.py _calculate_vanilla_component). -/
noncomputable def EuropeanDigitalSlope.calculate_vanilla_component
    (e : EuropeanDigitalSlope) : ℝ := 0

/-- Base-currency probability (pricing_engine.py
_calculate_base_probability_with_vanilla). -/
noncomputable def EuropeanDigitalSlope.calculate_base_probability_with_vanilla
    (e : EuropeanDigitalSlope) : Except String ℝ :=
  let strike := e.params.strikes.headD 0
  let vol := get_volatility_from_surface e.params.vol_surface e.params.spot
    strike e.time_to_expiry e.params.q_rate e.params.r_rate
  match price_binary_option e.params.contract_type e.params.spot strike
      e.time_to_expiry e.params.r_rate (e.params.r_rate - e.params.q_rate)
      vol with
  | .error msg => .error msg
  | .ok numeraire_prob =>
    let sign : ℝ := if e.params.contract_type = ContractType.CALL then 1 else -1
    .ok ((numeraire_prob * strike + sign * e.calculate_vanilla_component) /
      e.params.spot)

/-- EXPIRYMISS probability for two barriers (pricing_engine.py
_calculate_expiry_miss_probability): below the low strike plus above
the high strike, each leg at its own interpolated volatility. -/
noncomputable def EuropeanDigitalSlope.calculate_expiry_miss_probability
    (e : EuropeanDigitalSlope) (low_strike high_strike : ℝ) :
    Except String ℝ :=
  match price_binary_option ContractType.PUT e.params.spot low_strike
      e.time_to_expiry e.params.discount_rate e.params.mu
      (e.get_volatility_for_strike low_strike) with
  | .error msg => .error msg
  | .ok low_prob =>
    match price_binary_option ContractType.CALL e.params.spot high_strike
        e.time_to_expiry e.params.discount_rate e.params.mu
        (e.get_volatility_for_strike high_strike) with
    | .error msg => .error msg
    | .ok high_prob => .ok (low_prob + high_prob)

/-- EXPIRYRANGE probability for two barriers (pricing_engine.py
_calculate_expiry_range_probability): the discounted complement of
the EXPIRYMISS probability. -/
noncomputable def EuropeanDigitalSlope.calculate_expiry_range_probability
    (e : EuropeanDigitalSlope) (low_strike high_strike : ℝ) :
    Except String ℝ :=
  match e.calculate_expiry_miss_probability low_strike high_strike with
  | .error msg => .error msg
  | .ok expiry_miss_prob =>
    .ok (Real.exp (-(e.params.discount_rate * e.time_to_expiry)) *
      (1 - expiry_miss_prob))

/-- Two-barrier dispatch (pricing_engine.py
_calculate_two_barrier_probability): strikes sorted into low and
high, then EXPIRYMISS or (by the catch-all else of the source)
EXPIRYRANGE. Called only with exactly two strikes; the Python unpack
of sorted(strikes) raises for any other shape. -/
noncomputable def EuropeanDigitalSlope.calculate_two_barrier_probability
    (e : EuropeanDigitalSlope) : Except String ℝ :=
  match e.params.strikes with
  | [a, b] =>
    let low_strike := min a b
    let high_strike := max a b
    if e.params.contract_type = ContractType.EXPIRYMISS then
      e.calculate_expiry_miss_probability low_strike high_strike
    else
      e.calculate_expiry_range_probability low_strike high_strike
  | _ => .error "too many values to unpack"

/-- Base-probability dispatch (pricing_engine.py
_calculate_base_probability): two strikes go to the barrier path,
one strike dispatches on the pricing currency. -/
noncomputable def EuropeanDigitalSlope.base_probability
    (e : EuropeanDigitalSlope) : Except String ℝ :=
  if e.params.strikes.length = 2 then e.calculate_two_barrier_probability
  else
    match e.params.priced_with with
    | PricingCurrency.NUMERAIRE => e.calculate_numeraire_probability
    | PricingCurrency.QUANTO => e.calculate_quanto_probability
    | PricingCurrency.BASE => e.calculate_base_probability_with_vanilla

/-- Delta used for the markup (pricing_engine.py _calculate_delta):
binary call delta for CALL, binary put delta otherwise, at the first
strike and its interpolated volatility. -/
noncomputable def EuropeanDigitalSlope.calculate_delta
    (e : EuropeanDigitalSlope) : ℝ :=
  if e.params.contract_type = ContractType.CALL then
    delta_binary_call e.params.spot (e.params.strikes.headD 0)
      e.time_to_expiry e.params.discount_rate e.params.mu
      (e.get_volatility_for_strike (e.params.strikes.headD 0))
  else
    delta_binary_put e.params.spot (e.params.strikes.headD 0)
      e.time_to_expiry e.params.discount_rate e.params.mu
      (e.get_volatility_for_strike (e.params.strikes.headD 0))

/-- Vega used for the markup (pricing_engine.py _calculate_vega). -/
noncomputable def EuropeanDigitalSlope.calculate_vega
    (e : EuropeanDigitalSlope) : ℝ :=
  if e.params.contract_type = ContractType.CALL then
    vega_binary_call e.params.spot (e.params.strikes.headD 0)
      e.time_to_expiry e.params.discount_rate e.params.mu
      (e.get_volatility_for_strike (e.params.strikes.headD 0))
  else
    vega_binary_put e.params.spot (e.params.strikes.headD 0)
      e.time_to_expiry e.params.discount_rate e.params.mu
      (e.get_volatility_for_strike (e.params.strikes.headD 0))

/-- Final probability (pricing_engine.py calculate_probability): the
base probability plus the total risk markup, clamped into the unit
interval; an exception from the base probability propagates. -/
noncomputable def EuropeanDigitalSlope.calculate_probability
    (e : EuropeanDigitalSlope) : Except String ℝ :=
  match e.base_probability with
  | .error msg => .error msg
  | .ok base_prob =>
    let delta := e.calculate_delta
    let vega := e.calculate_vega
    let markup := e.risk_markup.calculate_total_markup delta vega
    .ok (max 0 (min 1 (base_prob + markup)))

/-! Concrete inputs used by the witness theorems below. -/

/-- Witness surface for the final-probability claim: one tenor of one
day with a flat smile. -/
noncomputable def wsurface1 : VolSurface := [(1, [(50, 1 / 10)])]

/-- Witness request for the final-probability claim: a one-strike
quanto call over one day. -/
noncomputable def wparams1 : PricingParameters :=
  { contract_type := ContractType.CALL, spot := 1, strikes := [1],
    date_start := 0, date_pricing := 0, date_expiry := 86400,
    discount_rate := 0, mu := 0, vol_surface := wsurface1, q_rate := 0,
    r_rate := 0, priced_with := PricingCurrency.QUANTO,
    underlying_symbol := frx_chars, market_type := crypto_chars,
    is_atm := False, for_sale := True, markup_parameters := none }

/-- Witness engine for the final-probability claim, the engine state
that construction derives from the witness request. -/
noncomputable def wengine1 : EuropeanDigitalSlope :=
  { params := wparams1,
    time_to_expiry :=
      calculate_time_to_expiry wparams1.date_start wparams1.date_expiry,
    risk_markup := RiskMarkup.mk' wparams1.is_atm
      (is_forward_starting wparams1.date_pricing wparams1.date_start)
      (calculate_time_to_expiry wparams1.date_start wparams1.date_expiry)
      wparams1.market_type wparams1.for_sale wparams1.markup_parameters }

/-- Witness surface for the two-barrier claim. -/
noncomputable def wsurface2 : VolSurface := [(1, [(50, 1 / 10)])]

/-- Witness engine for the two-barrier claim: an EXPIRYMISS request
with the two strikes given out of order. -/
noncomputable def wengine2 : EuropeanDigitalSlope :=
  { params :=
    { contract_type := ContractType.EXPIRYMISS, spot := 1, strikes := [2, 1],
      date_start := 0, date_pricing := 0, date_expiry := 86400,
      discount_rate := 0, mu := 0, vol_surface := wsurface2, q_rate := 0,
      r_rate := 0, priced_with := PricingCurrency.NUMERAIRE,
      underlying_symbol := frx_chars, market_type := forex_chars,
      is_atm := False, for_sale := True, markup_parameters := none },
    time_to_expiry := 1,
    risk_markup := RiskMarkup.mk' False False 1 forex_chars True none }

/-- Witness surface for the slope-adjustment claim. -/
noncomputable def wsurface3 : VolSurface := [(1, [(50, 1 / 10)])]

/-- Witness engine for the slope-adjustment claim: a one-strike
numeraire call priced at the start date. -/
noncomputable def wengine3 : EuropeanDigitalSlope :=
  { params :=
    { contract_type := ContractType.CALL, spot := 1, strikes := [1],
      date_start := 0, date_pricing := 0, date_expiry := 86400,
      discount_rate := 0, mu := 0, vol_surface := wsurface3, q_rate := 0,
      r_rate := 0, priced_with := PricingCurrency.NUMERAIRE,
      underlying_symbol := frx_chars, market_type := forex_chars,
      is_atm := False, for_sale := True, markup_parameters := none },
    time_to_expiry := 1,
    risk_markup := RiskMarkup.mk' False False 1 forex_chars True none }

/-- Pip size of the witness symbol for the slope-adjustment claim. -/
noncomputable def wpip3 : ℝ :=
  (UnderlyingConfig.by_symbol wengine3.params.underlying_symbol).pip_size

/-- Vanilla vega of the slope-adjustment witness. -/
noncomputable def wvega3 : ℝ :=
  vega_vanilla_call 1 1 1 0 0 (get_volatility_from_surface wsurface3 1 1 1 0 0)

/-- Smile slope of the slope-adjustment witness. -/
noncomputable def wslopeval3 : ℝ :=
  (get_volatility_from_surface wsurface3 1 (1 + wpip3) 1 0 0 -
    get_volatility_from_surface wsurface3 1 (1 - wpip3) 1 0 0) /
    (2 * wpip3)

/-- Raw (uncapped) slope adjustment of the slope-adjustment witness. -/
noncomputable def wslope3 : ℝ := (-1) * wvega3 * wslopeval3

/-- Witness smile for the surface-interpolation claim. -/
noncomputable def wsmile4 : Smile := [(25, 1 / 10), (50, 2 / 10), (75, 3 / 10)]

/-- Witness surface for the surface-interpolation claim. -/
noncomputable def wsurface4 : VolSurface := [(7, wsmile4)]

/-- Witness request for the unsupported-contract claim: a one-strike
EXPIRYMISS request. -/
noncomputable def wparams10 : PricingParameters :=
  { contract_type := ContractType.EXPIRYMISS, spot := 1, strikes := [1],
    date_start := 0, date_pricing := 0, date_expiry := 86400,
    discount_rate := 0, mu := 0, vol_surface := wsurface1, q_rate := 0,
    r_rate := 0, priced_with := PricingCurrency.NUMERAIRE,
    underlying_symbol := frx_chars, market_type := forex_chars,
    is_atm := False, for_sale := True, markup_parameters := none }

/-- Witness markup state for the forward-starting claim. -/
noncomputable def wrm9 : RiskMarkup :=
  RiskMarkup.mk' False False 1 crypto_chars True none

/-! Theorems. The numbered theorems settle, in order, the claims about
the source; the unnumbered ones are supporting lemmas. -/

theorem normalPdf_neg (t : ℝ) : normalPdf (-t) = normalPdf t := by
  simp [normalPdf, gaussianPDFReal, neg_sq]

theorem integrable_normalPdf : Integrable normalPdf := by
  simpa [normalPdf] using integrable_gaussianPDFReal 0 1

theorem normalCdf_add_neg (x : ℝ) : normalCdf x + normalCdf (-x) = 1 := by
  have hneg : normalCdf (-x) = ∫ t in Ioi x, normalPdf t := by
    have h := integral_comp_neg_Iic (-x) normalPdf
    simp only [normalPdf_neg, neg_neg] at h
    simpa [normalCdf] using h
  rw [normalCdf, hneg,
    intervalIntegral.integral_Iic_add_Ioi integrable_normalPdf.integrableOn
      integrable_normalPdf.integrableOn]
  simpa [normalPdf] using
    integral_gaussianPDFReal_eq_one 0 (one_ne_zero : (1 : NNReal) ≠ 0)

/-- C7: for positive spot, strike, time and volatility, the binary call
and binary put prices at identical arguments sum to the discount
factor exp (-(rate * time)). -/
theorem C7_binary_put_call_symmetry (spot strike time rate div vol : ℝ)
    (hspot : 0 < spot) (hstrike : 0 < strike) (htime : 0 < time)
    (hvol : 0 < vol) :
    binary_call spot strike time rate div vol +
      binary_put spot strike time rate div vol =
      Real.exp (-(rate * time)) := by
  have hcond : ¬(vol ≤ 0 ∨ time ≤ 0) := by
    push_neg
    exact ⟨hvol, htime⟩
  rw [binary_call, binary_put, if_neg hcond, if_neg hcond, ← mul_add,
    normalCdf_add_neg, mul_one]

/-- Witness for C7 at spot = strike = time = vol = 1 and zero rates. -/
theorem C7_witness :
    binary_call 1 1 1 0 0 1 + binary_put 1 1 1 0 0 1 =
      Real.exp (-(0 * 1)) :=
  C7_binary_put_call_symmetry 1 1 1 0 0 1 one_pos one_pos one_pos one_pos

/-- C8: whenever vol is nonpositive or time is nonpositive, the binary
prices are the moneyness indicators, the vanilla prices are the
intrinsic values, and all six sensitivities are 0. -/
theorem C8_degenerate_limits (spot strike time rate div vol : ℝ)
    (h : vol ≤ 0 ∨ time ≤ 0) :
    binary_call spot strike time rate div vol =
        (if spot > strike then 1 else 0) ∧
      binary_put spot strike time rate div vol =
        (if spot < strike then 1 else 0) ∧
      vanilla_call spot strike time rate div vol = max 0 (spot - strike) ∧
      vanilla_put spot strike time rate div vol = max 0 (strike - spot) ∧
      delta_binary_call spot strike time rate div vol = 0 ∧
      delta_binary_put spot strike time rate div vol = 0 ∧
      vega_binary_call spot strike time rate div vol = 0 ∧
      vega_binary_put spot strike time rate div vol = 0 ∧
      vega_vanilla_call spot strike time rate div vol = 0 ∧
      vega_vanilla_put spot strike time rate div vol = 0 := by
  refine ⟨?_, ?_, ?_, ?_, ?_, ?_, ?_, ?_, ?_, ?_⟩
  · rw [binary_call, if_pos h]
  · rw [binary_put, if_pos h]
  · rw [vanilla_call, if_pos h]
  · rw [vanilla_put, if_pos h]
  · rw [delta_binary_call, if_pos h]
  · rw [delta_binary_put, delta_binary_call, if_pos h, neg_zero]
  · rw [vega_binary_call, if_pos h]
  · rw [vega_binary_put, vega_binary_call, if_pos h, neg_zero]
  · rw [vega_vanilla_call, if_pos h]
  · rw [vega_vanilla_put, vega_vanilla_call, if_pos h]

/-- Witness for C8 at spot 2, strike 1, time 1, zero rates, vol 0. -/
theorem C8_witness :
    binary_call 2 1 1 0 0 0 = (if (2 : ℝ) > 1 then 1 else 0) ∧
      binary_put 2 1 1 0 0 0 = (if (2 : ℝ) < 1 then 1 else 0) ∧
      vanilla_call 2 1 1 0 0 0 = max 0 (2 - 1) ∧
      vanilla_put 2 1 1 0 0 0 = max 0 (1 - 2) ∧
      delta_binary_call 2 1 1 0 0 0 = 0 ∧
      delta_binary_put 2 1 1 0 0 0 = 0 ∧
      vega_binary_call 2 1 1 0 0 0 = 0 ∧
      vega_binary_put 2 1 1 0 0 0 = 0 ∧
      vega_vanilla_call 2 1 1 0 0 0 = 0 ∧
      vega_vanilla_put 2 1 1 0 0 0 = 0 :=
  C8_degenerate_limits 2 1 1 0 0 0 (Or.inl le_rfl)

/-- C1: whenever construction succeeds and calculate_probability
returns a value, that value is the base probability plus the total
markup clamped into the unit interval, and in particular lies in
the unit interval. -/
theorem C1_probability_clamped (p : PricingParameters)
    (e : EuropeanDigitalSlope) (prob : ℝ)
    (hmk : EuropeanDigitalSlope.mk' p = .ok e)
    (hprob : e.calculate_probability = .ok prob) :
    (∃ base_prob, e.base_probability = .ok base_prob ∧
      prob = max 0 (min 1 (base_prob +
        e.risk_markup.calculate_total_markup e.calculate_delta
          e.calculate_vega))) ∧
    0 ≤ prob ∧ prob ≤ 1 := by
  cases hbase : e.base_probability with
  | error msg =>
    rw [EuropeanDigitalSlope.calculate_probability, hbase] at hprob
    exact absurd hprob (by simp)
  | ok base_prob =>
    rw [EuropeanDigitalSlope.calculate_probability, hbase] at hprob
    simp only [Except.ok.injEq] at hprob
    refine ⟨⟨base_prob, rfl, hprob.symm⟩, ?_, ?_⟩
    · rw [← hprob]
      exact le_max_left 0 _
    · rw [← hprob]
      exact max_le zero_le_one (min_le_left 1 _)

/-- Witness for C1: the concrete quanto call request constructs, and
its probability is returned and lies in the unit interval. -/
theorem C1_witness :
    EuropeanDigitalSlope.mk' wparams1 = .ok wengine1 ∧
      ∃ prob, wengine1.calculate_probability = .ok prob ∧
        0 ≤ prob ∧ prob ≤ 1 := by
  have hv : validate_parameters wparams1 = .ok () := by
    have h4 : ¬(wparams1.date_expiry ≤ wparams1.date_start) := by
      show ¬((86400 : ℝ) ≤ 0)
      norm_num
    rw [validate_parameters, if_neg (by decide), if_neg (by decide),
      if_neg (by decide), if_neg h4]
  have hmk : EuropeanDigitalSlope.mk' wparams1 = .ok wengine1 := by
    rw [EuropeanDigitalSlope.mk', hv]
    rfl
  obtain ⟨prob, hprob⟩ :
      ∃ prob, wengine1.calculate_probability = .ok prob := ⟨_, rfl⟩
  exact ⟨hmk, prob, hprob,
    (C1_probability_clamped wparams1 wengine1 prob hmk hprob).2⟩

theorem contract_type_mem_all (ct : ContractType) :
    ct ∈ [ContractType.CALL, ContractType.PUT, ContractType.EXPIRYMISS,
      ContractType.EXPIRYRANGE] := by
  cases ct <;> simp

theorem priced_with_mem_all (pc : PricingCurrency) :
    pc ∈ [PricingCurrency.BASE, PricingCurrency.NUMERAIRE,
      PricingCurrency.QUANTO] := by
  cases pc <;> simp

theorem validate_parameters_ok_iff (p : PricingParameters) :
    validate_parameters p = .ok () ↔
      (p.strikes.length ∈ [1, 2] ∧ ¬(p.date_expiry ≤ p.date_start)) := by
  rw [validate_parameters,
    if_neg (not_not_intro (contract_type_mem_all p.contract_type)),
    if_neg (not_not_intro (priced_with_mem_all p.priced_with))]
  by_cases h3 : p.strikes.length ∈ [1, 2]
  · rw [if_neg (not_not_intro h3)]
    by_cases h4 : p.date_expiry ≤ p.date_start
    · rw [if_pos h4]
      simp [h3, h4]
    · rw [if_neg h4]
      simp [h3, h4]
  · rw [if_pos h3]
    simp [h3]

/-- C6: construction fails with a validation error exactly when the
contract type is outside the enumeration, or the pricing currency is
outside the enumeration, or the strike count is neither 1 nor 2, or
the expiry date is not after the start date; the error is the value
returned to the caller (never recovered internally). In the typed
model the first two disjuncts never hold, exactly as the Python enum
membership tests never fail for enum-typed fields. -/
theorem C6_validation_error_iff (p : PricingParameters) :
    (∃ msg, EuropeanDigitalSlope.mk' p = .error msg) ↔
      (p.contract_type ∉ [ContractType.CALL, ContractType.PUT,
          ContractType.EXPIRYMISS, ContractType.EXPIRYRANGE] ∨
        p.priced_with ∉ [PricingCurrency.BASE, PricingCurrency.NUMERAIRE,
          PricingCurrency.QUANTO] ∨
        p.strikes.length ∉ [1, 2] ∨
        p.date_expiry ≤ p.date_start) := by
  cases hval : validate_parameters p with
  | error msg =>
    have hnot : ¬(p.strikes.length ∈ [1, 2] ∧
        ¬(p.date_expiry ≤ p.date_start)) := by
      intro hok
      have := (validate_parameters_ok_iff p).mpr hok
      rw [this] at hval
      exact absurd hval (by simp)
    constructor
    · intro _
      rcases not_and_or.mp hnot with h | h
      · exact Or.inr (Or.inr (Or.inl h))
      · exact Or.inr (Or.inr (Or.inr (not_not.mp h)))
    · intro _
      exact ⟨msg, by rw [EuropeanDigitalSlope.mk', hval]⟩
  | ok u =>
    cases u
    have hok := (validate_parameters_ok_iff p).mp hval
    constructor
    · rintro ⟨msg, hmsg⟩
      rw [EuropeanDigitalSlope.mk', hval] at hmsg
      exact absurd hmsg (by simp)
    · rintro (h | h | h | h)
      · exact absurd (contract_type_mem_all p.contract_type) h
      · exact absurd (priced_with_mem_all p.priced_with) h
      · exact absurd hok.1 h
      · exact absurd h hok.2

theorem unsupported_contract_errors (e : EuropeanDigitalSlope) (k : ℝ)
    (hct : e.params.contract_type = ContractType.EXPIRYMISS ∨
      e.params.contract_type = ContractType.EXPIRYRANGE)
    (hstrikes : e.params.strikes = [k]) :
    e.base_probability = .error "Unsupported contract type" ∧
      e.calculate_probability = .error "Unsupported contract type" := by
  have hbase : e.base_probability = .error "Unsupported contract type" := by
    rcases hct with h | h <;>
      cases hpw : e.params.priced_with <;>
        simp [EuropeanDigitalSlope.base_probability, hstrikes, hpw,
          EuropeanDigitalSlope.calculate_numeraire_probability,
          EuropeanDigitalSlope.calculate_contract,
          EuropeanDigitalSlope.calculate_quanto_probability,
          EuropeanDigitalSlope.calculate_base_probability_with_vanilla,
          price_binary_option, h]
  exact ⟨hbase, by rw [EuropeanDigitalSlope.calculate_probability, hbase]⟩

/-- C10: an EXPIRYMISS or EXPIRYRANGE request with exactly one strike
and a valid date order passes construction for every pricing
currency, and calculate_probability then fails with the unsupported
contract type error raised out of the binary-price dispatch, before a
probability is produced. -/
theorem C10_one_strike_expiry_contracts (p : PricingParameters) (k : ℝ)
    (hct : p.contract_type = ContractType.EXPIRYMISS ∨
      p.contract_type = ContractType.EXPIRYRANGE)
    (hstrikes : p.strikes = [k])
    (hdate : p.date_start < p.date_expiry) :
    ∃ e, EuropeanDigitalSlope.mk' p = .ok e ∧
      e.base_probability = .error "Unsupported contract type" ∧
      e.calculate_probability = .error "Unsupported contract type" := by
  have hv : validate_parameters p = .ok () :=
    (validate_parameters_ok_iff p).mpr
      ⟨by rw [hstrikes]; simp, not_le.mpr hdate⟩
  refine ⟨⟨p, calculate_time_to_expiry p.date_start p.date_expiry,
    RiskMarkup.mk' p.is_atm (is_forward_starting p.date_pricing p.date_start)
      (calculate_time_to_expiry p.date_start p.date_expiry) p.market_type
      p.for_sale p.markup_parameters⟩,
    by rw [EuropeanDigitalSlope.mk', hv], ?_, ?_⟩
  · exact (unsupported_contract_errors _ k hct hstrikes).1
  · exact (unsupported_contract_errors _ k hct hstrikes).2

/-- Witness for C10: the concrete one-strike EXPIRYMISS request. -/
theorem C10_witness :
    ∃ e, EuropeanDigitalSlope.mk' wparams10 = .ok e ∧
      e.base_probability = .error "Unsupported contract type" ∧
      e.calculate_probability = .error "Unsupported contract type" :=
  C10_one_strike_expiry_contracts wparams10 1 (Or.inl rfl) rfl
    (by show (0 : ℝ) < 86400; norm_num)

/-- C2: with exactly two strikes, the EXPIRYMISS base probability is
the binary put at the lower strike plus the binary call at the higher
strike, each at its own interpolated volatility, and the EXPIRYRANGE
base probability is the discount factor times one minus that sum. -/
theorem C2_two_barrier_probability (e : EuropeanDigitalSlope) (a b : ℝ)
    (hstrikes : e.params.strikes = [a, b]) :
    (e.params.contract_type = ContractType.EXPIRYMISS →
      e.base_probability = .ok
        (binary_put e.params.spot (min a b) e.time_to_expiry
            e.params.discount_rate e.params.mu
            (get_volatility_from_surface e.params.vol_surface e.params.spot
              (min a b) e.time_to_expiry e.params.q_rate e.params.r_rate) +
          binary_call e.params.spot (max a b) e.time_to_expiry
            e.params.discount_rate e.params.mu
            (get_volatility_from_surface e.params.vol_surface e.params.spot
              (max a b) e.time_to_expiry e.params.q_rate e.params.r_rate))) ∧
    (e.params.contract_type = ContractType.EXPIRYRANGE →
      e.base_probability = .ok
        (Real.exp (-(e.params.discount_rate * e.time_to_expiry)) *
          (1 -
            (binary_put e.params.spot (min a b) e.time_to_expiry
                e.params.discount_rate e.params.mu
                (get_volatility_from_surface e.params.vol_surface e.params.spot
                  (min a b) e.time_to_expiry e.params.q_rate e.params.r_rate) +
              binary_call e.params.spot (max a b) e.time_to_expiry
                e.params.discount_rate e.params.mu
                (get_volatility_from_surface e.params.vol_surface e.params.spot
                  (max a b) e.time_to_expiry e.params.q_rate
                  e.params.r_rate))))) := by
  constructor
  · intro h
    simp [EuropeanDigitalSlope.base_probability, hstrikes,
      EuropeanDigitalSlope.calculate_two_barrier_probability,
      EuropeanDigitalSlope.calculate_expiry_miss_probability,
      EuropeanDigitalSlope.get_volatility_for_strike, price_binary_option, h]
  · intro h
    simp [EuropeanDigitalSlope.base_probability, hstrikes,
      EuropeanDigitalSlope.calculate_two_barrier_probability,
      EuropeanDigitalSlope.calculate_expiry_miss_probability,
      EuropeanDigitalSlope.calculate_expiry_range_probability,
      EuropeanDigitalSlope.get_volatility_for_strike, price_binary_option, h]

/-- Witness for C2: the concrete EXPIRYMISS engine with strikes given
out of order. -/
theorem C2_witness :
    wengine2.base_probability = .ok
      (binary_put 1 (min 2 1) 1 0 0
          (get_volatility_from_surface wsurface2 1 (min 2 1) 1 0 0) +
        binary_call 1 (max 2 1) 1 0 0
          (get_volatility_from_surface wsurface2 1 (max 2 1) 1 0 0)) :=
  (C2_two_barrier_probability wengine2 2 1 rfl).1 rfl

theorem apply_traded_market_markup_iff (rm : RiskMarkup) :
    rm.apply_traded_market_markup ↔
      (rm.market_type ∈ [forex_chars, commodities_chars, indices_chars] ∨
        basket_chars <:+ rm.market_type) := by
  unfold RiskMarkup.apply_traded_market_markup
  constructor
  · rintro (h | h | h | h)
    · exact Or.inl h
    · exact Or.inr h
    · exact Or.inr ((by decide : basket_chars <:+ forex_basket_chars).trans h)
    · exact Or.inr
        ((by decide : basket_chars <:+ commodity_basket_chars).trans h)
  · rintro (h | h)
    · exact Or.inl h
    · exact Or.inr (Or.inl h)

theorem calculate_total_markup_eq (rm : RiskMarkup) (delta vega : ℝ) :
    rm.calculate_total_markup delta vega =
      ((if rm.market_type ∈ [forex_chars, commodities_chars, indices_chars] ∨
          basket_chars <:+ rm.market_type then
        (match rm.params.hour_end_markup_parameters with
          | some hep => HourEndMarkup.calculate_markup hep
              (min hep.current_spot hep.low) (max hep.current_spot hep.high)
          | none => 0) +
          (if ¬rm.is_atm then min (rm.params.vol_spread * |vega|) 0.7
            else 0) +
          (if ¬is_intraday rm.time_to_expiry then
            max 0 (min (rm.params.spot_spread_size * rm.params.pip_size *
              |delta|) 0.01)
          else 0) +
          (if rm.apply_smile_uncertainty_markup then
            rm.params.smile_uncertainty_amount
          else 0) +
          EqualTieMarkup.calculate_markup [] rm.time_to_expiry
        else 0) +
        (if ¬rm.for_sale ∧
            rm.time_to_expiry * 365 * 24 * 3600 ≤ POTENTIAL_ARBITRAGE_DURATION
          then ModelArbitrageMarkup.calculate_markup
          else 0)) / 2 := by
  have hiff := apply_traded_market_markup_iff rm
  by_cases htr : rm.apply_traded_market_markup
  · have hc : rm.market_type ∈ [forex_chars, commodities_chars,
        indices_chars] ∨ basket_chars <:+ rm.market_type := hiff.mp htr
    simp only [RiskMarkup.calculate_total_markup,
      RiskMarkup.apply_equal_tie_markup, not_true, and_false,
      not_false_iff, if_true, htr, hc]
    cases hhe : rm.params.hour_end_markup_parameters <;> split_ifs <;> ring
  · have hc : ¬(rm.market_type ∈ [forex_chars, commodities_chars,
        indices_chars] ∨ basket_chars <:+ rm.market_type) :=
      fun h => htr (hiff.mpr h)
    simp only [RiskMarkup.calculate_total_markup,
      RiskMarkup.apply_equal_tie_markup, not_true, and_false,
      not_false_iff, if_true, htr, hc, if_false]
    split_ifs <;> ring

/-- C5: the total markup is half the sum of the active contributions:
the five traded-market rules (hour end, vol spread, spot spread,
smile uncertainty, equal tie) contribute exactly when the market
class is forex, commodities or indices or ends with the basket
suffix, and otherwise contribute nothing; the model-arbitrage
contribution is added, regardless of market class, exactly when the
contract is not for sale and its duration in seconds is at most the
arbitrage threshold. -/
theorem C5_total_markup_characterization (rm : RiskMarkup)
    (delta vega : ℝ) :
    rm.calculate_total_markup delta vega =
      ((if rm.market_type ∈ [forex_chars, commodities_chars, indices_chars] ∨
          basket_chars <:+ rm.market_type then
        (match rm.params.hour_end_markup_parameters with
          | some hep => HourEndMarkup.calculate_markup hep
              (min hep.current_spot hep.low) (max hep.current_spot hep.high)
          | none => 0) +
          (if ¬rm.is_atm then min (rm.params.vol_spread * |vega|) 0.7
            else 0) +
          (if ¬is_intraday rm.time_to_expiry then
            max 0 (min (rm.params.spot_spread_size * rm.params.pip_size *
              |delta|) 0.01)
          else 0) +
          (if rm.apply_smile_uncertainty_markup then
            rm.params.smile_uncertainty_amount
          else 0) +
          EqualTieMarkup.calculate_markup [] rm.time_to_expiry
        else 0) +
        (if ¬rm.for_sale ∧
            rm.time_to_expiry * 365 * 24 * 3600 ≤ POTENTIAL_ARBITRAGE_DURATION
          then ModelArbitrageMarkup.calculate_markup
          else 0)) / 2 :=
  calculate_total_markup_eq rm delta vega

/-- C9: two markup computations whose states differ only in the
forward-starting flag return the same total markup, because the
hard-wired equal-tie rule makes the forward-starting guard vacuous. -/
theorem C9_forward_starting_no_effect (rm : RiskMarkup) (fwd1 fwd2 : Prop)
    (delta vega : ℝ) :
    RiskMarkup.calculate_total_markup
        { rm with is_forward_starting := fwd1 } delta vega =
      RiskMarkup.calculate_total_markup
        { rm with is_forward_starting := fwd2 } delta vega := by
  simp only [calculate_total_markup_eq,
    RiskMarkup.apply_smile_uncertainty_markup]

/-- C3: for a one-strike numeraire request with a CALL or PUT contract,
the base probability is the binary price plus
sign * vanilla_vega * slope, where the sign is -1 for CALL and +1 for
PUT, the vanilla vega is taken at the volatility interpolated at the
strike, and the slope is the difference of the surface volatilities
one pip above and below the strike over twice the pip size; the
adjustment is clamped to [-0.03, 0.03] exactly when the time to
expiry is at most one day and the smallest surface tenor exceeds 7
days; for a forward-starting request the adjustment is 0. -/
theorem C3_numeraire_slope_adjustment (e : EuropeanDigitalSlope)
    (k pip_size vanilla_vega slope raw_adjustment : ℝ)
    (hpw : e.params.priced_with = PricingCurrency.NUMERAIRE)
    (hstrikes : e.params.strikes = [k])
    (hct : e.params.contract_type = ContractType.CALL ∨
      e.params.contract_type = ContractType.PUT)
    (hpip : pip_size =
      (UnderlyingConfig.by_symbol e.params.underlying_symbol).pip_size)
    (hvega : vanilla_vega =
      (if e.params.contract_type = ContractType.CALL then
        vega_vanilla_call e.params.spot k e.time_to_expiry
          e.params.discount_rate e.params.mu
          (get_volatility_from_surface e.params.vol_surface e.params.spot k
            e.time_to_expiry e.params.q_rate e.params.r_rate)
      else
        vega_vanilla_put e.params.spot k e.time_to_expiry
          e.params.discount_rate e.params.mu
          (get_volatility_from_surface e.params.vol_surface e.params.spot k
            e.time_to_expiry e.params.q_rate e.params.r_rate)))
    (hslope : slope =
      (get_volatility_from_surface e.params.vol_surface e.params.spot
          (k + pip_size) e.time_to_expiry e.params.q_rate e.params.r_rate -
        get_volatility_from_surface e.params.vol_surface e.params.spot
          (k - pip_size) e.time_to_expiry e.params.q_rate e.params.r_rate) /
        (2 * pip_size))
    (hraw : raw_adjustment =
      (if e.params.contract_type = ContractType.CALL then (-1 : ℝ) else 1) *
        vanilla_vega * slope) :
    ∃ bs_probability,
      price_binary_option e.params.contract_type e.params.spot k
          e.time_to_expiry e.params.discount_rate e.params.mu
          (get_volatility_from_surface e.params.vol_surface e.params.spot k
            e.time_to_expiry e.params.q_rate e.params.r_rate) =
        .ok bs_probability ∧
      (¬is_forward_starting e.params.date_pricing e.params.date_start →
        e.base_probability = .ok (bs_probability +
          (if e.time_to_expiry ≤ 1 / 365 ∧
              first_tenor_on_surface e.params.vol_surface > 7 then
            max (-0.03) (min 0.03 raw_adjustment)
          else raw_adjustment))) ∧
      (is_forward_starting e.params.date_pricing e.params.date_start →
        e.base_probability = .ok bs_probability) := by
  subst hpip hvega hslope hraw
  rcases hct with h | h
  · refine ⟨binary_call e.params.spot k e.time_to_expiry
      e.params.discount_rate e.params.mu
      (get_volatility_from_surface e.params.vol_surface e.params.spot k
        e.time_to_expiry e.params.q_rate e.params.r_rate), ?_, ?_, ?_⟩
    · rw [h]
      rfl
    · intro hnf
      simp [EuropeanDigitalSlope.base_probability, hstrikes, hpw,
        EuropeanDigitalSlope.calculate_numeraire_probability,
        EuropeanDigitalSlope.calculate_contract, price_binary_option, h, hnf]
    · intro hf
      simp [EuropeanDigitalSlope.base_probability, hstrikes, hpw,
        EuropeanDigitalSlope.calculate_numeraire_probability,
        EuropeanDigitalSlope.calculate_contract, price_binary_option, h, hf]
  · refine ⟨binary_put e.params.spot k e.time_to_expiry
      e.params.discount_rate e.params.mu
      (get_volatility_from_surface e.params.vol_surface e.params.spot k
        e.time_to_expiry e.params.q_rate e.params.r_rate), ?_, ?_, ?_⟩
    · rw [h]
      rfl
    · intro hnf
      simp [EuropeanDigitalSlope.base_probability, hstrikes, hpw,
        EuropeanDigitalSlope.calculate_numeraire_probability,
        EuropeanDigitalSlope.calculate_contract, price_binary_option, h, hnf]
    · intro hf
      simp [EuropeanDigitalSlope.base_probability, hstrikes, hpw,
        EuropeanDigitalSlope.calculate_numeraire_probability,
        EuropeanDigitalSlope.calculate_contract, price_binary_option, h, hf]

/-- Witness for C3: the concrete numeraire call priced at its start
date, whose base probability carries the slope adjustment. -/
theorem C3_witness :
    ∃ bs_probability,
      price_binary_option ContractType.CALL 1 1 1 0 0
          (get_volatility_from_surface wsurface3 1 1 1 0 0) =
        .ok bs_probability ∧
      wengine3.base_probability = .ok (bs_probability +
        (if (1 : ℝ) ≤ 1 / 365 ∧ first_tenor_on_surface wsurface3 > 7 then
          max (-0.03) (min 0.03 wslope3)
        else wslope3)) := by
  obtain ⟨bs, h1, h2, h3⟩ :=
    C3_numeraire_slope_adjustment wengine3 1 wpip3 wvega3 wslopeval3 wslope3
      rfl rfl (Or.inl rfl) rfl rfl rfl rfl
  refine ⟨bs, h1, h2 ?_⟩
  show ¬((0 : ℝ) - 0 > 5)
  norm_num

theorem tenor_fold_spec (target : ℝ) (xs : List (ℤ × Smile)) :
    ∀ x : ℤ × Smile,
      xs.foldl (tenor_min_step target) x ∈ x :: xs ∧
      |((xs.foldl (tenor_min_step target) x).1 : ℝ) - target| ≤
        |(x.1 : ℝ) - target| ∧
      ∀ q ∈ xs, |((xs.foldl (tenor_min_step target) x).1 : ℝ) - target| ≤
        |(q.1 : ℝ) - target| := by
  induction xs with
  | nil =>
    intro x
    refine ⟨by simp, le_refl _, ?_⟩
    intro q hq
    exact absurd hq (List.not_mem_nil q)
  | cons y ys ih =>
    intro x
    have hstep : (tenor_min_step target x y = x ∨
        tenor_min_step target x y = y) ∧
        |((tenor_min_step target x y).1 : ℝ) - target| ≤
          |(x.1 : ℝ) - target| ∧
        |((tenor_min_step target x y).1 : ℝ) - target| ≤
          |(y.1 : ℝ) - target| := by
      unfold tenor_min_step
      by_cases hlt : |(y.1 : ℝ) - target| < |(x.1 : ℝ) - target|
      · rw [if_pos hlt]
        exact ⟨Or.inr rfl, le_of_lt hlt, le_refl _⟩
      · rw [if_neg hlt]
        exact ⟨Or.inl rfl, le_refl _, not_lt.mp hlt⟩
    obtain ⟨hmem, hle, hall⟩ := ih (tenor_min_step target x y)
    simp only [List.foldl_cons]
    refine ⟨?_, ?_, ?_⟩
    · rcases List.mem_cons.mp hmem with h | h
      · rcases hstep.1 with h2 | h2
        · rw [h, h2]
          exact List.mem_cons_self x (y :: ys)
        · rw [h, h2]
          exact List.mem_cons_of_mem x (List.mem_cons_self y ys)
      · exact List.mem_cons_of_mem x (List.mem_cons_of_mem y h)
    · exact le_trans hle hstep.2.1
    · intro q hq
      rcases List.mem_cons.mp hq with rfl | hq2
      · exact le_trans hle hstep.2.2
      · exact hall q hq2

theorem nearest_tenor_spec (target : ℝ) (l : List (ℤ × Smile))
    (ts : ℤ × Smile) (h : nearest_tenor target l = some ts) :
    ts ∈ l ∧ ∀ q ∈ l, |(ts.1 : ℝ) - target| ≤ |(q.1 : ℝ) - target| := by
  cases l with
  | nil => exact absurd h (by simp [nearest_tenor])
  | cons x xs =>
    have h2 : xs.foldl (tenor_min_step target) x = ts := by
      simpa [nearest_tenor] using h
    obtain ⟨hmem, hle, hall⟩ := tenor_fold_spec target xs x
    rw [h2] at hmem hle hall
    refine ⟨hmem, ?_⟩
    intro q hq
    rcases List.mem_cons.mp hq with rfl | hq2
    · exact hle
    · exact hall q hq2

theorem chain_head_le_getLastD (rs : List (ℤ × ℝ)) :
    ∀ q : ℤ × ℝ, List.Chain' (fun u v : ℤ × ℝ => u.1 < v.1) (q :: rs) →
      q.1 ≤ (rs.getLastD q).1 := by
  induction rs with
  | nil =>
    intro q _
    exact le_refl _
  | cons r rs' ih =>
    intro q hch
    rw [List.getLastD_cons]
    exact le_trans (le_of_lt (List.chain'_cons.mp hch).1)
      (ih r (List.chain'_cons.mp hch).2)

theorem smile_scan_bracket (c : ℝ) (rest : List (ℤ × ℝ)) :
    ∀ p : ℤ × ℝ, List.Chain' (fun u v : ℤ × ℝ => u.1 < v.1) (p :: rest) →
      (p.1 : ℝ) < c → c < ((rest.getLastD p).1 : ℝ) →
      ∃ i a b, (p :: rest)[i]? = some a ∧ (p :: rest)[i + 1]? = some b ∧
        (a.1 : ℝ) ≤ c ∧ c ≤ (b.1 : ℝ) ∧
        smile_scan c (p :: rest) =
          some (a.2 * (1 - (c - (a.1 : ℝ)) / ((b.1 : ℝ) - (a.1 : ℝ))) +
            b.2 * ((c - (a.1 : ℝ)) / ((b.1 : ℝ) - (a.1 : ℝ)))) := by
  induction rest with
  | nil =>
    intro p _ hlt hgt
    exact absurd (hlt.trans hgt) (lt_irrefl _)
  | cons q rs ih =>
    intro p hch hlt hgt
    have hgt' : c < ((rs.getLastD q).1 : ℝ) := by
      rw [List.getLastD_cons] at hgt
      exact hgt
    by_cases hcq : c ≤ (q.1 : ℝ)
    · refine ⟨0, p, q, rfl, by simp, le_of_lt hlt, hcq, ?_⟩
      simp only [smile_scan]
      rw [if_pos ⟨le_of_lt hlt, hcq⟩]
    · obtain ⟨i, a, b, h1, h2, h3, h4, h5⟩ :=
        ih q (List.chain'_cons.mp hch).2 (not_le.mp hcq) hgt'
      refine ⟨i + 1, a, b, ?_, ?_, h3, h4, ?_⟩
      · simpa using h1
      · simpa using h2
      · simp only [smile_scan]
        rw [if_neg (fun hand => hcq hand.2)]
        exact h5

theorem get_volatility_unfold (vol_surface : VolSurface)
    (spot strike time_to_expiry q_rate r_rate : ℝ) (t : ℤ)
    (p : ℤ × ℝ) (rest : List (ℤ × ℝ)) (c : ℝ)
    (hn : nearest_tenor (time_to_expiry * 365) vol_surface =
      some (t, p :: rest))
    (hc : c = 50 + (Real.log (strike /
      (spot * Real.exp ((r_rate - q_rate) * time_to_expiry))) /
      (2 * Real.pi)) * 100) :
    get_volatility_from_surface vol_surface spot strike time_to_expiry
        q_rate r_rate =
      (if c ≤ (p.1 : ℝ) then p.2
      else if c ≥ ((rest.getLastD p).1 : ℝ) then (rest.getLastD p).2
      else
        match smile_scan c (p :: rest) with
        | some v => v
        | none => (((p :: rest).lookup 50).getD 0)) := by
  rw [get_volatility_from_surface, hn]
  rw [hc]

theorem get_volatility_cases (vol_surface : VolSurface)
    (spot strike time_to_expiry q_rate r_rate : ℝ) (t : ℤ)
    (p : ℤ × ℝ) (rest : List (ℤ × ℝ)) (c : ℝ)
    (hn : nearest_tenor (time_to_expiry * 365) vol_surface =
      some (t, p :: rest))
    (hch : List.Chain' (fun u v : ℤ × ℝ => u.1 < v.1) (p :: rest))
    (hc : c = 50 + (Real.log (strike /
      (spot * Real.exp ((r_rate - q_rate) * time_to_expiry))) /
      (2 * Real.pi)) * 100) :
    (c ≤ (p.1 : ℝ) →
      get_volatility_from_surface vol_surface spot strike time_to_expiry
        q_rate r_rate = p.2) ∧
    (((rest.getLastD p).1 : ℝ) ≤ c →
      get_volatility_from_surface vol_surface spot strike time_to_expiry
        q_rate r_rate = (rest.getLastD p).2) ∧
    ((p.1 : ℝ) < c → c < ((rest.getLastD p).1 : ℝ) →
      ∃ i a b, (p :: rest)[i]? = some a ∧ (p :: rest)[i + 1]? = some b ∧
        (a.1 : ℝ) ≤ c ∧ c ≤ (b.1 : ℝ) ∧
        get_volatility_from_surface vol_surface spot strike time_to_expiry
            q_rate r_rate =
          a.2 * (1 - (c - (a.1 : ℝ)) / ((b.1 : ℝ) - (a.1 : ℝ))) +
            b.2 * ((c - (a.1 : ℝ)) / ((b.1 : ℝ) - (a.1 : ℝ)))) := by
  have hunf := get_volatility_unfold vol_surface spot strike time_to_expiry
    q_rate r_rate t p rest c hn hc
  refine ⟨?_, ?_, ?_⟩
  · intro h1
    rw [hunf, if_pos h1]
  · intro h2
    by_cases h1 : c ≤ (p.1 : ℝ)
    · rw [hunf, if_pos h1]
      cases rest with
      | nil => rfl
      | cons r rs =>
        have hpl : p.1 ≤ ((r :: rs).getLastD p).1 := by
          rw [List.getLastD_cons]
          exact le_trans (le_of_lt (List.chain'_cons.mp hch).1)
            (chain_head_le_getLastD rs r (List.chain'_cons.mp hch).2)
        have hlt : p.1 < r.1 := (List.chain'_cons.mp hch).1
        have : ((r :: rs).getLastD p).1 < ((r :: rs).getLastD p).1 := by
          calc ((r :: rs).getLastD p).1 ≤ p.1 := by
                exact_mod_cast le_trans h2 h1
            _ < r.1 := hlt
            _ ≤ ((r :: rs).getLastD p).1 := by
                rw [List.getLastD_cons]
                exact chain_head_le_getLastD rs r (List.chain'_cons.mp hch).2
        exact absurd this (lt_irrefl _)
    · rw [hunf, if_neg h1, if_pos h2]
  · intro h1 h2
    obtain ⟨i, a, b, ha, hb, h3, h4, h5⟩ :=
      smile_scan_bracket c rest p hch h1 h2
    refine ⟨i, a, b, ha, hb, h3, h4, ?_⟩
    rw [hunf, if_neg (not_le.mpr h1), if_neg (not_le.mpr h2), h5]

/-- C4: the surface query uses the smile of a tenor nearest to
time-to-expiry * 365, maps the strike to the synthetic coordinate
50 + (ln(strike / forward) / (2 pi)) * 100 with
forward = spot * exp((r - q) * T), and returns the lowest-coordinate
vol when the coordinate is at most the smallest key, the
highest-coordinate vol when it is at least the largest key, and
otherwise the linear interpolation between the two bracketing
coordinates. -/
theorem C4_surface_interpolation (vol_surface : VolSurface)
    (spot strike time_to_expiry q_rate r_rate : ℝ) (t : ℤ)
    (p : ℤ × ℝ) (rest : List (ℤ × ℝ)) (c : ℝ)
    (hn : nearest_tenor (time_to_expiry * 365) vol_surface =
      some (t, p :: rest))
    (hch : List.Chain' (fun u v : ℤ × ℝ => u.1 < v.1) (p :: rest))
    (hc : c = 50 + (Real.log (strike /
      (spot * Real.exp ((r_rate - q_rate) * time_to_expiry))) /
      (2 * Real.pi)) * 100) :
    (t, p :: rest) ∈ vol_surface ∧
    (∀ q ∈ vol_surface, |(t : ℝ) - time_to_expiry * 365| ≤
      |(q.1 : ℝ) - time_to_expiry * 365|) ∧
    (c ≤ (p.1 : ℝ) →
      get_volatility_from_surface vol_surface spot strike time_to_expiry
        q_rate r_rate = p.2) ∧
    (((rest.getLastD p).1 : ℝ) ≤ c →
      get_volatility_from_surface vol_surface spot strike time_to_expiry
        q_rate r_rate = (rest.getLastD p).2) ∧
    ((p.1 : ℝ) < c → c < ((rest.getLastD p).1 : ℝ) →
      ∃ i a b, (p :: rest)[i]? = some a ∧ (p :: rest)[i + 1]? = some b ∧
        (a.1 : ℝ) ≤ c ∧ c ≤ (b.1 : ℝ) ∧
        get_volatility_from_surface vol_surface spot strike time_to_expiry
            q_rate r_rate =
          a.2 * (1 - (c - (a.1 : ℝ)) / ((b.1 : ℝ) - (a.1 : ℝ))) +
            b.2 * ((c - (a.1 : ℝ)) / ((b.1 : ℝ) - (a.1 : ℝ)))) := by
  obtain ⟨hmem, hmin⟩ :=
    nearest_tenor_spec (time_to_expiry * 365) vol_surface (t, p :: rest) hn
  obtain ⟨hlow, hhigh, hmid⟩ := get_volatility_cases vol_surface spot strike
    time_to_expiry q_rate r_rate t p rest c hn hch hc
  exact ⟨hmem, hmin, hlow, hhigh, hmid⟩

/-- Witness for C4: a one-tenor surface with a three-point smile, with
spot, strike and rates chosen so that the synthetic coordinate is
exactly 50, strictly inside the smile; the query interpolates between
two bracketing coordinates. -/
theorem C4_witness :
    ∃ i a b, wsmile4[i]? = some a ∧ wsmile4[i + 1]? = some b ∧
      (a.1 : ℝ) ≤ 50 ∧ (50 : ℝ) ≤ (b.1 : ℝ) ∧
      get_volatility_from_surface wsurface4 1 1 1 0 0 =
        a.2 * (1 - (50 - (a.1 : ℝ)) / ((b.1 : ℝ) - (a.1 : ℝ))) +
          b.2 * ((50 - (a.1 : ℝ)) / ((b.1 : ℝ) - (a.1 : ℝ))) := by
  obtain ⟨_, _, _, _, hmid⟩ :=
    C4_surface_interpolation wsurface4 1 1 1 0 0 7 (25, 1 / 10)
      ([(50, 2 / 10), (75, 3 / 10)]) 50 rfl
      (by norm_num [List.chain'_cons])
      (by norm_num [Real.exp_zero, Real.log_one])
  exact hmid (by norm_num) (by norm_num [List.getLastD])

/-- Witness for C9: the concrete markup state with the flag set the
two ways. -/
theorem C9_witness :
    RiskMarkup.calculate_total_markup
        { wrm9 with is_forward_starting := True } 0 0 =
      RiskMarkup.calculate_total_markup
        { wrm9 with is_forward_starting := False } 0 0 :=
  C9_forward_starting_no_effect wrm9 True False 0 0
